import Mathlib

/-!
Verification of the service-orchestration core of `ing-bank/orchestration-pkg`.

The development shallowly embeds the Go packages `pkg/task` and
`pkg/orchestration`:

* Go `interface\x7b\x7d` values are modelled by `Option GoAny` (`none` is Go `nil`).
* Go `error` values are modelled by `Option String` (`none` is Go `nil`,
  `some msg` is an error whose `Error()` is `msg`).
* A `context.Context` is modelled by its `Value` lookup, the only part the
  library reads (the keys `"dryRun"` and `"recover"`).
* The concurrent task runner `task.Run` spawns one worker per task; each
  worker independently fills slot `i` with the outcome of `tasks[i].Run`
  (`nil`, the task's error, `"internal server error"` for a recovered panic,
  or `"timeout"` when the context-done branch of the `select` wins).  The
  embedding records the per-task outcome, including abnormal termination and
  a lost race against the context, in `TaskOutcome`, and the runner becomes
  the per-slot map that the goroutine/WaitGroup code computes.
* A `Service` is modelled by the outcome of each of its four lifecycle
  methods together with its name and `GetResponse`; `CallServices` is a
  direct translation of the Go control flow, additionally returning the
  trace of batch actions it invoked synchronously and the actions it
  spawned as fire-and-forget goroutines (`go RunServiceAction(...)`), both
  always over the whole `services` batch, exactly as in the source.
  The observer hooks `OnActionError` / `OnStageStart` / `ActionLogger` /
  `RollbackErrorReporter` only observe and never change the control flow or
  any returned value, so they are omitted from the embedding.
-/

namespace OrchPkg

/-- A non-nil Go `interface\x7b\x7d` value: a string, or some other value
(identified by a tag).  Go `nil` is `(none : Option GoAny)`. -/
inductive GoAny where
  | str (s : String)
  | other (tag : Nat)
deriving DecidableEq, Repr

/-- A Go object implementing the `Nameable` interface: it has a name and
(abstractly) some further data. -/
structure NameableObj where
  objName : String
  objData : String
deriving DecidableEq, Repr

/-- A `context.Context`, modelled by its `Value` lookup (the library only
reads `ctx.Value "dryRun"` and `ctx.Value "recover"` and only compares the
result against `nil`). -/
structure Context where
  value : String → Option GoAny

/-- How one task's `Run` method behaves in a given execution: it returns
`nil`, returns an error, terminates abnormally (panics), or the ambient
context becomes done before its result is received (`ctxDone`). -/
inductive TaskOutcome where
  | ok
  | fail (msg : String)
  | panicked
  | ctxDone
deriving DecidableEq, Repr

/-- The error slot that `task.Run` records for a task with the given
outcome: a recovered panic becomes `"internal server error"` (the deferred
`recover()` in the sub-worker), a lost race against `ctx.Done()` becomes
`"timeout"` (the `select` in the worker). -/
def TaskOutcome.slot : TaskOutcome → Option String
  | .ok => none
  | .fail msg => some msg
  | .panicked => some "internal server error"
  | .ctxDone => some "timeout"

/-- A `task.Runnable`, abstracted by the outcome of its `Run` method in the
execution under consideration. -/
structure Runnable where
  outcome : TaskOutcome
deriving DecidableEq, Repr

namespace task

/-- `task.Run` from `pkg/logging/logging.go` (package `task`): allocates
`make([]error, len(tasks))` and has worker `i` write the outcome of
`tasks[i]` into slot `i`; slots are independent, so the result is the
per-slot map of `TaskOutcome.slot` over the tasks. -/
def Run (tasks : List Runnable) : List (Option String) :=
  tasks.map fun t => t.outcome.slot

/-- `task.AnyError`: true iff some slot holds a non-nil error. -/
def AnyError (errs : List (Option String)) : Bool :=
  errs.any fun e => e.isSome

end task

/-- The `ServiceAction` lifecycle phases (the four constants of
`pkg/orchestration/api_service.go`; the Go type is a string, but every call
site uses one of these four constants). -/
inductive ServiceAction where
  | CHECK
  | RECOVER
  | RUN
  | ROLLBACK
deriving DecidableEq, Repr

/-- A `Service`, abstracted by the outcome of each lifecycle method in the
execution under consideration, plus its name and `GetResponse`. -/
structure Service where
  name : String
  check : TaskOutcome
  recover : TaskOutcome
  run : TaskOutcome
  rollback : TaskOutcome
  getResponse : Option String → Option GoAny

/-- `ProtoService.Run`: dispatches a lifecycle action to the corresponding
method of the wrapped service. -/
def protoServiceRun (s : Service) : ServiceAction → TaskOutcome
  | .CHECK => s.check
  | .RECOVER => s.recover
  | .RUN => s.run
  | .ROLLBACK => s.rollback

/-- `RunServiceAction`: wraps every service of the batch as a
`ProtoService` task and runs all of them through `task.Run`. -/
def RunServiceAction (services : List Service) (action : ServiceAction) :
    List (Option String) :=
  task.Run (services.map fun s => ⟨protoServiceRun s action⟩)

/-- `CallServicesOpts`; the observer callbacks are omitted (they do not
affect control flow or results). -/
structure CallServicesOpts where
  SkipRollback : Bool

/-- The observable result of one `CallServices` call: the returned error
list and summary error, the batch actions invoked synchronously (in order),
and the batch actions spawned as fire-and-forget goroutines.  Every
recorded action runs over the whole `services` batch, as in the source. -/
structure CallResult where
  errs : List (Option String)
  summary : Option String
  invoked : List ServiceAction
  spawned : List ServiceAction
deriving DecidableEq, Repr

/-- The tail of `CallServices` after the CHECK block (`api_service.go`
lines 123-135): when `"dryRun"` is nil, RUN the batch, and on any RUN error
spawn a background ROLLBACK of the whole batch unless `SkipRollback`;
when `"dryRun"` is set, return the errors accumulated so far. -/
def afterCheckPhase (ctx : Context) (services : List Service)
    (opts : CallServicesOpts) (errs : List (Option String))
    (invoked : List ServiceAction) : CallResult :=
  if (ctx.value "dryRun").isNone then
    let errs2 := RunServiceAction services .RUN
    if task.AnyError errs2 then
      { errs := errs2
        summary := some "one or more runs failed"
        invoked := invoked ++ [.RUN]
        spawned := if opts.SkipRollback then [] else [.ROLLBACK] }
    else
      { errs := errs2, summary := none, invoked := invoked ++ [.RUN],
        spawned := [] }
  else
    { errs := errs, summary := none, invoked := invoked, spawned := [] }

/-- `CallServices` (`api_service.go` lines 107-136), as a function of the
context values, the batch and the options. -/
def CallServices (ctx : Context) (services : List Service)
    (opts : CallServicesOpts) : CallResult :=
  let errs := RunServiceAction services .CHECK
  if task.AnyError errs then
    if (ctx.value "dryRun").isNone && (ctx.value "recover").isSome then
      if task.AnyError (RunServiceAction services .RECOVER) then
        { errs := errs
          summary := some "unable to recover from one or more failed pre-run checks"
          invoked := [.CHECK, .RECOVER]
          spawned := [] }
      else
        afterCheckPhase ctx services opts errs [.CHECK, .RECOVER]
    else
      { errs := errs
        summary := some "one or more pre-run checks failed"
        invoked := [.CHECK]
        spawned := [] }
  else
    afterCheckPhase ctx services opts errs [.CHECK]

/-- The observable result of one `CallStagedServices` call: the Go return
values `(nStagesRun, errs, summary)`, plus the stage indices on which
`CallServices` was invoked (in order) and the list of stage batches rolled
back by the detached goroutine, in the order it rolls them back. -/
structure StagedResult where
  nStagesRun : Nat
  errs : List (Option String)
  summary : Option String
  started : List Nat
  bgRollback : List (List Service)

/-- The loop of `CallStagedServices` (`api_service.go` lines 144-160).
`k` is the index of the first stage of `stages` in the original list;
`done` holds the stages already run, most recent first (so on failure it is
exactly the sequence `stages[k-1], ..., stages[0]` that the spawned
goroutine rolls back with `j = i-1, i-2, ..., 0`). -/
def callStagedAux (ctx : Context) (opts : CallServicesOpts) :
    List (List Service) → Nat → List (List Service) → StagedResult
  | [], k, _ => ⟨k, [], none, [], []⟩
  | stage :: rest, k, done =>
    let r := CallServices ctx stage opts
    match r.summary with
    | some e =>
      ⟨k, r.errs, some e, [k], if opts.SkipRollback then [] else done⟩
    | none =>
      let r2 := callStagedAux ctx opts rest (k + 1) (stage :: done)
      ⟨r2.nStagesRun, r2.errs, r2.summary, k :: r2.started, r2.bgRollback⟩

/-- `CallStagedServices` (`api_service.go` lines 143-163). -/
def CallStagedServices (ctx : Context) (stages : List (List Service))
    (opts : CallServicesOpts) : StagedResult :=
  callStagedAux ctx opts stages 0 []

/-- One entry of the aggregated reply (`payload.go`). -/
structure ResponseDetail where
  name : String
  detail : GoAny
deriving DecidableEq, Repr

/-- The aggregated reply (`payload.go`). -/
structure Response where
  status : String
  details : List ResponseDetail
deriving DecidableEq, Repr

/-- `generateResponseContainer` (`payload.go` lines 31-41): HTTP 200 and
status `"ok"` on success, HTTP 500 and the summary's message otherwise. -/
def generateResponseContainer (err : Option String) : Nat × Response :=
  match err with
  | none => (200, ⟨"ok", []⟩)
  | some msg => (500, ⟨msg, []⟩)

/-- `GenerateResponse` (`payload.go` lines 43-57): appends, for each
service whose `GetResponse` is non-nil, a detail entry.  The Go loop
indexes `errs[i]`, so services and errors are consumed pairwise. -/
def GenerateResponse (services : List Service) (errs : List (Option String))
    (err : Option String) : Nat × Response :=
  let c := generateResponseContainer err
  let details := (services.zip errs).foldl
    (fun acc p =>
      match p.1.getResponse p.2 with
      | none => acc
      | some d => acc ++ [⟨p.1.name, d⟩])
    []
  (c.1, ⟨c.2.status, details⟩)

/-- `CallServicesAndReply` (`api_service.go` lines 138-141). -/
def CallServicesAndReply (ctx : Context) (services : List Service)
    (opts : CallServicesOpts) : Nat × Response :=
  let r := CallServices ctx services opts
  GenerateResponse services r.errs r.summary

/-- The `RestApiAction` tags of `pkg/orchestration/api_rest.go`. -/
inductive RestApiAction where
  | GET
  | POST
  | PUT
  | DELETE
  | LIST
deriving DecidableEq, Repr

/-- A `RestApi` implementation, modelled by the value/error pair each verb
returns in the execution under consideration.  `get` returns a `Nameable`
(possibly nil) and an error; the other verbs return an opaque response and
an error. -/
structure RestApi where
  get : String → Option NameableObj × Option String
  post : Option NameableObj → Option GoAny × Option String
  put : Option NameableObj → Option GoAny × Option String
  delete : String → Option GoAny × Option String
  -- the LIST verb of the interface; unused by Check/Rollback
  listAll : Option GoAny × Option String

/-- One call made against the backing `RestApi`, used to trace which API
calls `Check`/`Rollback` perform. -/
inductive ApiCall where
  | get (name : String)
  | post (obj : Option NameableObj)
  | put (obj : Option NameableObj)
  | delete (name : String)
  | listAll
deriving DecidableEq, Repr

/-- The state of a `RestApiService` (`api_rest.go`): the
`SimpleRestApiService` fields plus the `backup` captured at CHECK time.
`RequestPayload` is the `Nameable` passed at construction (required for
POST/PUT; a nil payload would make the Go rollback of POST panic and is
outside the model). -/
structure RestApiService where
  ApiName : String
  Action : RestApiAction
  RequestName : String
  RequestPayload : NameableObj
  Response : Option GoAny
  backup : Option NameableObj
deriving DecidableEq, Repr

/-- `RestApiAsService` (`api_rest.go` lines 54-64): builds a
`RestApiService` with empty response and no backup. -/
def RestApiAsService (action : RestApiAction) (apiName name : String)
    (payload : NameableObj) : RestApiService :=
  { ApiName := apiName, Action := action, RequestName := name,
    RequestPayload := payload, Response := none, backup := none }

/-- `RestApiService.Check` (`api_rest.go` lines 107-123).  Returns the
error, the updated service (the PUT/DELETE branches store the backup), and
the trace of API calls made. -/
def RestApiService.Check (api : RestApi) (s : RestApiService) :
    Option String × RestApiService × List ApiCall :=
  if s.Action = .GET ∨ s.Action = .LIST then
    (none, s, [])
  else
    let r := api.get s.RequestName
    if s.Action = .POST then
      if r.2.isNone then
        (some ("cannot create " ++ s.RequestName ++ " because it already exists"),
          s, [.get s.RequestName])
      else
        (none, s, [.get s.RequestName])
    else
      (r.2, { s with backup := r.1 }, [.get s.RequestName])

/-- `RestApiService.Rollback` (`api_rest.go` lines 125-146).  Returns the
error and the trace of API calls made. -/
def RestApiService.Rollback (api : RestApi) (s : RestApiService) :
    Option String × List ApiCall :=
  if s.Action = .PUT then
    ((api.put s.backup).2, [.put s.backup])
  else if s.Action = .POST then
    ((api.delete s.RequestPayload.objName).2, [.delete s.RequestPayload.objName])
  else if s.Action = .DELETE then
    ((api.post s.backup).2, [.post s.backup])
  else
    (none, [])

/-- `SimpleRestApiService.GetResponse` (`api_rest.go` lines 70-75), which
`RestApiService` inherits unchanged: the error's message when the error is
non-nil, otherwise the stored response — with no default. -/
def RestApiService.GetResponse (s : RestApiService) (err : Option String) :
    Option GoAny :=
  match err with
  | some msg => some (.str msg)
  | none => s.Response

/-- The `Responder` fragment (`api_service.go` lines 43-46), embedded by
`SimpleService` (not by the REST adapters). -/
structure Responder where
  Response : Option GoAny
  UseNullResponseAsDefault : Bool
deriving DecidableEq, Repr

/-- `Responder.GetResponse` (`api_service.go` lines 48-56): the error's
message when the error is non-nil; otherwise `"ok"` when the stored
response is nil and `UseNullResponseAsDefault` is unset, else the stored
response. -/
def Responder.GetResponse (r : Responder) (err : Option String) :
    Option GoAny :=
  match err with
  | some msg => some (.str msg)
  | none =>
    if !r.UseNullResponseAsDefault && r.Response.isNone then
      some (.str "ok")
    else
      r.Response

/-- A service that is never consulted, used as the `getD` default when
stating positional properties. -/
def defaultService : Service :=
  { name := "", check := .ok, recover := .ok, run := .ok, rollback := .ok,
    getResponse := fun _ => none }

/-- A context carrying neither `"dryRun"` nor `"recover"`. -/
def wCtxEmpty : Context := ⟨fun _ => none⟩

/-- A context carrying a non-nil (non-boolean) `"dryRun"` value. -/
def wCtxDry : Context :=
  ⟨fun k => if k = "dryRun" then some (.other 1) else none⟩

/-- A context carrying a non-nil `"recover"` value and no `"dryRun"`. -/
def wCtxRecover : Context :=
  ⟨fun k => if k = "recover" then some (.str "yes") else none⟩

/-- A service whose four lifecycle methods all succeed. -/
def wSvcOk : Service :=
  { name := "ok-svc", check := .ok, recover := .ok, run := .ok,
    rollback := .ok, getResponse := fun _ => none }

/-- A service whose RUN fails (CHECK succeeds). -/
def wSvcRunFail : Service :=
  { name := "run-fail", check := .ok, recover := .ok, run := .fail "boom",
    rollback := .fail "rb", getResponse := fun _ => none }

/-- A service whose CHECK fails and whose RECOVER succeeds. -/
def wSvcCheckFail : Service :=
  { name := "check-fail", check := .fail "pre", recover := .ok, run := .ok,
    rollback := .ok, getResponse := fun _ => none }

/-- A service whose CHECK and RECOVER both fail. -/
def wSvcCheckRecFail : Service :=
  { name := "check-rec-fail", check := .fail "pre", recover := .fail "rec",
    run := .ok, rollback := .ok, getResponse := fun _ => none }

/-- A task batch mixing a panic, a failure, a success and a lost race
against the context. -/
def wTasks : List Runnable := [⟨.panicked⟩, ⟨.fail "boom"⟩, ⟨.ok⟩, ⟨.ctxDone⟩]

/-- A REST adapter for GET whose `Run` has not stored any response. -/
def wRestNilResponse : RestApiService :=
  RestApiAsService .GET "api" "obj" ⟨"obj", "d"⟩

/-- `task.AnyError` is false exactly when every slot is nil. -/
theorem anyError_eq_false_iff (errs : List (Option String)) :
    task.AnyError errs = false ↔ ∀ e ∈ errs, e = none := by
  simp [task.AnyError, Option.isSome_iff_ne_none]

/-- `RunServiceAction` computes, slot by slot, the outcome of the action's
method on the corresponding service. -/
theorem runServiceAction_eq_map (services : List Service)
    (action : ServiceAction) :
    RunServiceAction services action =
      services.map fun s => (protoServiceRun s action).slot := by
  simp [RunServiceAction, task.Run, List.map_map, Function.comp]

/-- Claim C1 (error_handling): when CHECK produced no failure and RUN
produced at least one, `CallServices` returns the RUN error list with the
summary `"one or more runs failed"`; without `SkipRollback` it spawns one
fire-and-forget ROLLBACK of the whole batch (and `RunServiceAction` of
ROLLBACK invokes the rollback of every service of the batch, slot by
slot), while with `SkipRollback` nothing is spawned. -/
theorem callServices_run_failure_rollback (ctx : Context)
    (services : List Service) (opts : CallServicesOpts)
    (hdry : ctx.value "dryRun" = none)
    (hcheck : task.AnyError (RunServiceAction services .CHECK) = false)
    (hrun : task.AnyError (RunServiceAction services .RUN) = true) :
    (CallServices ctx services opts).errs = RunServiceAction services .RUN ∧
    (CallServices ctx services opts).summary = some "one or more runs failed" ∧
    (CallServices ctx services opts).spawned =
      (if opts.SkipRollback then [] else [ServiceAction.ROLLBACK]) ∧
    RunServiceAction services .ROLLBACK =
      services.map fun s => s.rollback.slot := by
  refine ⟨?_, ?_, ?_, ?_⟩
  · simp [CallServices, afterCheckPhase, hdry, hcheck, hrun]
  · simp [CallServices, afterCheckPhase, hdry, hcheck, hrun]
  · simp [CallServices, afterCheckPhase, hdry, hcheck, hrun]
  · rw [runServiceAction_eq_map]; rfl

/-- Witness for C1 at a one-service batch whose RUN fails. -/
theorem callServices_run_failure_rollback_witness :
    (CallServices wCtxEmpty [wSvcRunFail] ⟨false⟩).errs =
      RunServiceAction [wSvcRunFail] .RUN ∧
    (CallServices wCtxEmpty [wSvcRunFail] ⟨false⟩).summary =
      some "one or more runs failed" ∧
    (CallServices wCtxEmpty [wSvcRunFail] ⟨false⟩).spawned =
      (if (⟨false⟩ : CallServicesOpts).SkipRollback then []
       else [ServiceAction.ROLLBACK]) ∧
    RunServiceAction [wSvcRunFail] .ROLLBACK =
      [wSvcRunFail].map fun s => s.rollback.slot :=
  callServices_run_failure_rollback wCtxEmpty [wSvcRunFail] ⟨false⟩
    rfl rfl rfl

/-- Claim C2 (error_handling): when CHECK produced a failure and the
context has no `"recover"` value or a non-nil `"dryRun"` value,
`CallServices` returns the CHECK errors with the summary
`"one or more pre-run checks failed"`, having invoked only CHECK (in
particular no RUN) and spawned nothing. -/
theorem callServices_check_failure_no_recover (ctx : Context)
    (services : List Service) (opts : CallServicesOpts)
    (hcheck : task.AnyError (RunServiceAction services .CHECK) = true)
    (hcond : ctx.value "recover" = none ∨ (ctx.value "dryRun").isSome = true) :
    (CallServices ctx services opts).errs = RunServiceAction services .CHECK ∧
    (CallServices ctx services opts).summary =
      some "one or more pre-run checks failed" ∧
    (CallServices ctx services opts).invoked = [ServiceAction.CHECK] ∧
    (CallServices ctx services opts).spawned = [] ∧
    ServiceAction.RUN ∉ (CallServices ctx services opts).invoked := by
  have hfalse : ((ctx.value "dryRun").isNone && (ctx.value "recover").isSome)
      = false := by
    rcases hcond with h | h
    · simp [h]
    · rw [Option.isSome_iff_exists] at h
      rcases h with ⟨v, hv⟩
      simp [hv]
  refine ⟨?_, ?_, ?_, ?_, ?_⟩ <;> simp [CallServices, hcheck, hfalse]

/-- Witness for C2 at a one-service batch whose CHECK fails, in a context
with no `"recover"` value. -/
theorem callServices_check_failure_no_recover_witness :
    (CallServices wCtxEmpty [wSvcCheckFail] ⟨false⟩).errs =
      RunServiceAction [wSvcCheckFail] .CHECK ∧
    (CallServices wCtxEmpty [wSvcCheckFail] ⟨false⟩).summary =
      some "one or more pre-run checks failed" ∧
    (CallServices wCtxEmpty [wSvcCheckFail] ⟨false⟩).invoked =
      [ServiceAction.CHECK] ∧
    (CallServices wCtxEmpty [wSvcCheckFail] ⟨false⟩).spawned = [] ∧
    ServiceAction.RUN ∉ (CallServices wCtxEmpty [wSvcCheckFail] ⟨false⟩).invoked :=
  callServices_check_failure_no_recover wCtxEmpty [wSvcCheckFail] ⟨false⟩
    rfl (Or.inl rfl)

/-- Claim C4 (invariants): with any non-nil `"dryRun"` value (the value
itself is irrelevant), `CallServices` invokes only CHECK and spawns
nothing — so RUN, ROLLBACK and RECOVER are never invoked — and when CHECK
succeeds it returns the CHECK error list, all slots nil, with no summary
failure. -/
theorem callServices_dryRun_check_only (ctx : Context)
    (services : List Service) (opts : CallServicesOpts) (v : GoAny)
    (hdry : ctx.value "dryRun" = some v) :
    (CallServices ctx services opts).invoked = [ServiceAction.CHECK] ∧
    (CallServices ctx services opts).spawned = [] ∧
    (task.AnyError (RunServiceAction services .CHECK) = false →
      (CallServices ctx services opts).errs =
        RunServiceAction services .CHECK ∧
      (CallServices ctx services opts).summary = none ∧
      ∀ e ∈ (CallServices ctx services opts).errs, e = none) := by
  cases hcheck : task.AnyError (RunServiceAction services .CHECK) with
  | false =>
    have hall := (anyError_eq_false_iff (RunServiceAction services .CHECK)).mp
      hcheck
    refine ⟨?_, ?_, fun _ => ⟨?_, ?_, ?_⟩⟩ <;>
      first
        | (exact fun e he => hall e (by simpa [CallServices, afterCheckPhase,
            hdry, hcheck] using he))
        | simp [CallServices, afterCheckPhase, hdry, hcheck]
  | true =>
    refine ⟨?_, ?_, fun h => Bool.noConfusion h⟩ <;>
      simp [CallServices, afterCheckPhase, hdry, hcheck]

/-- Witness for C4 at a one-service batch in a context whose `"dryRun"`
value is non-nil and not a boolean. -/
theorem callServices_dryRun_check_only_witness :
    (CallServices wCtxDry [wSvcOk] ⟨false⟩).invoked = [ServiceAction.CHECK] ∧
    (CallServices wCtxDry [wSvcOk] ⟨false⟩).spawned = [] ∧
    (task.AnyError (RunServiceAction [wSvcOk] .CHECK) = false →
      (CallServices wCtxDry [wSvcOk] ⟨false⟩).errs =
        RunServiceAction [wSvcOk] .CHECK ∧
      (CallServices wCtxDry [wSvcOk] ⟨false⟩).summary = none ∧
      ∀ e ∈ (CallServices wCtxDry [wSvcOk] ⟨false⟩).errs, e = none) :=
  callServices_dryRun_check_only wCtxDry [wSvcOk] ⟨false⟩ (.other 1) rfl

/-- Claim C10 (functional_correctness): on the empty batch `CallServices`
returns the empty error list and no summary for every context and options
(`task.Run` on an empty task list is empty and `task.AnyError` of the
empty list is false), and `CallServicesAndReply` returns HTTP 200 with
status `"ok"` and no details. -/
theorem callServices_empty_batch (ctx : Context) (opts : CallServicesOpts) :
    (CallServices ctx [] opts).errs = [] ∧
    (CallServices ctx [] opts).summary = none ∧
    (CallServices ctx [] opts).spawned = [] ∧
    task.Run [] = [] ∧
    task.AnyError [] = false ∧
    CallServicesAndReply ctx [] opts = (200, ⟨"ok", []⟩) := by
  cases h : ctx.value "dryRun" <;>
    simp [CallServices, afterCheckPhase, RunServiceAction, task.Run,
      task.AnyError, h, CallServicesAndReply, GenerateResponse,
      generateResponseContainer]

/-- Claim C3 (error_handling): RECOVER is invoked iff CHECK failed, the
`"recover"` context value is non-nil and the `"dryRun"` value is nil; in
that situation, when the recovery of any service fails, `CallServices`
returns the original CHECK errors with the summary
`"unable to recover from one or more failed pre-run checks"` (the recovery
errors are discarded), and when every recovery succeeds, execution
proceeds to RUN. -/
theorem callServices_recover_iff (ctx : Context) (services : List Service)
    (opts : CallServicesOpts) :
    ((ServiceAction.RECOVER ∈ (CallServices ctx services opts).invoked) ↔
      (task.AnyError (RunServiceAction services .CHECK) = true ∧
       (ctx.value "recover").isSome = true ∧
       ctx.value "dryRun" = none)) ∧
    (task.AnyError (RunServiceAction services .CHECK) = true →
     (ctx.value "recover").isSome = true →
     ctx.value "dryRun" = none →
      ((task.AnyError (RunServiceAction services .RECOVER) = true →
         (CallServices ctx services opts).errs =
           RunServiceAction services .CHECK ∧
         (CallServices ctx services opts).summary =
           some "unable to recover from one or more failed pre-run checks") ∧
       (task.AnyError (RunServiceAction services .RECOVER) = false →
         ServiceAction.RUN ∈ (CallServices ctx services opts).invoked))) := by
  cases hcheck : task.AnyError (RunServiceAction services .CHECK) <;>
    cases hdry : ctx.value "dryRun" <;>
      cases hrec : (ctx.value "recover").isSome <;>
        cases hrecover : task.AnyError (RunServiceAction services .RECOVER) <;>
          cases hrun : task.AnyError (RunServiceAction services .RUN) <;>
            simp [CallServices, afterCheckPhase, hcheck, hdry, hrec, hrecover,
              hrun]

/-- Witness for C3: a batch whose CHECK and RECOVER both fail, in a
context with `"recover"` set and `"dryRun"` unset. -/
theorem callServices_recover_iff_witness :
    (CallServices wCtxRecover [wSvcCheckRecFail] ⟨false⟩).errs =
      RunServiceAction [wSvcCheckRecFail] .CHECK ∧
    (CallServices wCtxRecover [wSvcCheckRecFail] ⟨false⟩).summary =
      some "unable to recover from one or more failed pre-run checks" :=
  ((callServices_recover_iff wCtxRecover [wSvcCheckRecFail] ⟨false⟩).2
    rfl rfl rfl).1 rfl

/-- Claim C6 (invariants): `task.Run` returns one slot per task, slot `i`
holding the outcome of `tasks[i]` (nil, the task's failure, `"timeout"`,
or `"internal server error"`); consequently `RunServiceAction` on `N`
services returns exactly `N` slots with slot `i` the outcome of the
action's method on service `i`. -/
theorem taskRun_length_positional (tasks : List Runnable)
    (services : List Service) (action : ServiceAction) :
    (task.Run tasks).length = tasks.length ∧
    (∀ i, i < tasks.length →
      (task.Run tasks).getD i none = (tasks.getD i ⟨.ok⟩).outcome.slot) ∧
    (RunServiceAction services action).length = services.length ∧
    (∀ i, i < services.length →
      (RunServiceAction services action).getD i none =
        (protoServiceRun (services.getD i defaultService) action).slot) := by
  refine ⟨by simp [task.Run], fun i hi => ?_, by simp [runServiceAction_eq_map],
    fun i hi => ?_⟩
  · rw [task.Run, List.getD_eq_getElem _ _ (by simpa using hi),
      List.getD_eq_getElem _ _ hi]
    simp
  · rw [runServiceAction_eq_map,
      List.getD_eq_getElem _ _ (by simpa using hi),
      List.getD_eq_getElem _ _ hi]
    simp

/-- Witness for C6 at the mixed four-task batch and a one-service batch. -/
theorem taskRun_length_positional_witness :
    1 < wTasks.length ∧
    (task.Run wTasks).getD 1 none = (wTasks.getD 1 ⟨.ok⟩).outcome.slot ∧
    0 < [wSvcRunFail].length ∧
    (RunServiceAction [wSvcRunFail] .RUN).getD 0 none =
      (protoServiceRun ([wSvcRunFail].getD 0 defaultService) .RUN).slot :=
  ⟨by decide,
   (taskRun_length_positional wTasks [wSvcRunFail] .RUN).2.1 1 (by decide),
   by decide,
   (taskRun_length_positional wTasks [wSvcRunFail] .RUN).2.2.2 0 (by decide)⟩

/-- Claim C7 (safety): a task whose `Run` terminates abnormally gets the
slot `"internal server error"`, and no other slot is affected — replacing
task `i` by anything leaves every other slot of `task.Run` unchanged, so
the rest of the batch completes normally and the fault never escapes. -/
theorem taskRun_panic_isolation (tasks : List Runnable) (i : Nat)
    (hi : i < tasks.length)
    (hp : (tasks.getD i ⟨.ok⟩).outcome = .panicked) :
    (task.Run tasks).getD i none = some "internal server error" ∧
    (∀ j, j < tasks.length → j ≠ i → ∀ t2 : Runnable,
      (task.Run (tasks.set i t2)).getD j none =
        (task.Run tasks).getD j none) := by
  constructor
  · rw [task.Run, List.getD_eq_getElem _ _ (by simpa using hi)]
    rw [List.getD_eq_getElem _ _ hi] at hp
    simp [hp, TaskOutcome.slot]
  · intro j hj hne t2
    rw [task.Run, task.Run,
      List.getD_eq_getElem _ _ (by simpa using hj),
      List.getD_eq_getElem _ _ (by simpa using hj)]
    simp only [List.getElem_map]
    rw [List.getElem_set_of_ne (Ne.symm hne) t2 (by simpa using hj)]

/-- Witness for C7 at the mixed batch, whose task 0 panics. -/
theorem taskRun_panic_isolation_witness :
    0 < wTasks.length ∧
    (wTasks.getD 0 ⟨.ok⟩).outcome = .panicked ∧
    (task.Run wTasks).getD 0 none = some "internal server error" ∧
    (task.Run (wTasks.set 0 ⟨.ok⟩)).getD 1 none =
      (task.Run wTasks).getD 1 none :=
  ⟨by decide, by decide,
   (taskRun_panic_isolation wTasks 0 (by decide) (by decide)).1,
   (taskRun_panic_isolation wTasks 0 (by decide) (by decide)).2 1
     (by decide) (by decide) ⟨.ok⟩⟩

/-- Claim C8 (functional_correctness): for a service built by
`RestApiAsService` — with POST, `Check` fails with
`"cannot create <name> because it already exists"` exactly when `Get(name)`
succeeds and succeeds when it fails, and `Rollback` invokes
`Delete(payload.Name)` (for any backup); with PUT or DELETE, `Check`
invokes `Get(name)`, stores the result as backup and fails iff `Get`
fails, and `Rollback` invokes `Put(backup)` for PUT and `Post(backup)` for
DELETE; with GET or LIST, `Check` and `Rollback` succeed making no API
call. -/
theorem restApiService_check_rollback_spec (api : RestApi)
    (apiName nm : String) (payload : NameableObj) (b : Option NameableObj) :
    (RestApiService.Check api (RestApiAsService .POST apiName nm payload) =
      ((if (api.get nm).2.isNone
        then some ("cannot create " ++ nm ++ " because it already exists")
        else none),
       RestApiAsService .POST apiName nm payload, [.get nm])) ∧
    (RestApiService.Rollback api
        { RestApiAsService .POST apiName nm payload with backup := b } =
      ((api.delete payload.objName).2, [.delete payload.objName])) ∧
    (RestApiService.Check api (RestApiAsService .PUT apiName nm payload) =
      ((api.get nm).2,
       { RestApiAsService .PUT apiName nm payload with
          backup := (api.get nm).1 },
       [.get nm])) ∧
    (RestApiService.Rollback api
        { RestApiAsService .PUT apiName nm payload with
           backup := (api.get nm).1 } =
      ((api.put (api.get nm).1).2, [.put (api.get nm).1])) ∧
    (RestApiService.Check api (RestApiAsService .DELETE apiName nm payload) =
      ((api.get nm).2,
       { RestApiAsService .DELETE apiName nm payload with
          backup := (api.get nm).1 },
       [.get nm])) ∧
    (RestApiService.Rollback api
        { RestApiAsService .DELETE apiName nm payload with
           backup := (api.get nm).1 } =
      ((api.post (api.get nm).1).2, [.post (api.get nm).1])) ∧
    (RestApiService.Check api (RestApiAsService .GET apiName nm payload) =
      (none, RestApiAsService .GET apiName nm payload, [])) ∧
    (RestApiService.Rollback api (RestApiAsService .GET apiName nm payload) =
      (none, [])) ∧
    (RestApiService.Check api (RestApiAsService .LIST apiName nm payload) =
      (none, RestApiAsService .LIST apiName nm payload, [])) ∧
    (RestApiService.Rollback api (RestApiAsService .LIST apiName nm payload) =
      (none, [])) := by
  refine ⟨?_, ?_, ?_, ?_, ?_, ?_, ?_, ?_, ?_, ?_⟩ <;>
    cases hget : (api.get nm).2 <;>
      simp [RestApiService.Check, RestApiService.Rollback, RestApiAsService,
        hget]

/-- Counterexample for claim C9: a REST-adapter service with nil stored
response and nil error returns nil from `GetResponse`, not `"ok"` — the
REST adapters have no `UseNullResponseAsDefault` flag and no `"ok"`
default. -/
theorem restGetResponse_counterexample :
    RestApiService.GetResponse wRestNilResponse none = none ∧
    (none : Option GoAny) ≠ some (.str "ok") := by
  exact ⟨rfl, by simp⟩

/-- Claim C9 as amended: for the REST-adapter services
(`SimpleRestApiService`, inherited unchanged by `RestApiService`),
`GetResponse(err)` returns the error's message when `err` is non-nil and
otherwise returns the stored response unchanged — nil included; the
`"ok"` default guarded by the `UseNullResponseAsDefault` flag is the
behaviour of the separate `Responder` fragment (embedded by
`SimpleService`), whose `GetResponse` returns the error's message when
`err` is non-nil, `"ok"` when the stored response is nil and the flag is
unset, and the stored response otherwise. -/
theorem restGetResponse_amended (s : RestApiService) (r : Responder)
    (err : Option String) :
    (∀ msg, err = some msg →
      RestApiService.GetResponse s err = some (.str msg)) ∧
    (err = none → RestApiService.GetResponse s err = s.Response) ∧
    (∀ msg, err = some msg →
      Responder.GetResponse r err = some (.str msg)) ∧
    (err = none → r.UseNullResponseAsDefault = false → r.Response = none →
      Responder.GetResponse r err = some (.str "ok")) ∧
    (err = none → r.Response.isSome = true →
      Responder.GetResponse r err = r.Response) ∧
    (err = none → r.UseNullResponseAsDefault = true →
      Responder.GetResponse r err = r.Response) := by
  refine ⟨fun msg hmsg => ?_, fun hnone => ?_, fun msg hmsg => ?_,
    fun hnone hflag hresp => ?_, fun hnone hresp => ?_,
    fun hnone hflag => ?_⟩ <;>
    subst_vars <;>
      simp_all [RestApiService.GetResponse, Responder.GetResponse,
        Option.isSome_iff_ne_none]

/-- Witness for the amended C9: nil error and nil response give nil for
the REST adapter and `"ok"` for a `Responder` with the flag unset. -/
theorem restGetResponse_amended_witness :
    RestApiService.GetResponse wRestNilResponse none =
      wRestNilResponse.Response ∧
    Responder.GetResponse ⟨none, false⟩ none = some (.str "ok") :=
  ⟨(restGetResponse_amended wRestNilResponse ⟨none, false⟩ none).2.1 rfl,
   (restGetResponse_amended wRestNilResponse ⟨none, false⟩ none).2.2.2.1
     rfl rfl rfl⟩

/-- When every remaining stage succeeds, the staged loop runs them all in
order, returning the final index and an empty rollback. -/
theorem callStagedAux_all_ok (ctx : Context) (opts : CallServicesOpts)
    (stages : List (List Service)) :
    ∀ (k : Nat) (done : List (List Service)),
    (∀ stage ∈ stages, (CallServices ctx stage opts).summary = none) →
    callStagedAux ctx opts stages k done =
      ⟨k + stages.length, [], none, List.range' k stages.length, []⟩ := by
  induction stages with
  | nil => intro k done _; simp [callStagedAux]
  | cons stage rest ih =>
    intro k done h
    have h1 : (CallServices ctx stage opts).summary = none :=
      h stage (List.mem_cons_self stage rest)
    have ih2 := ih (k + 1) (stage :: done) fun s hs => h s (List.mem_cons_of_mem _ hs)
    simp only [callStagedAux, h1, ih2, List.length_cons, List.range'_succ]
    exact congrArg (fun n => StagedResult.mk n [] none
      (k :: List.range' (k + 1) rest.length) []) (by omega)

/-- When the stages before index `k` succeed and stage `k` fails, the
staged loop stops at `k`, propagates stage `k`'s errors and summary, and
(unless `SkipRollback`) schedules the already-run stages for rollback in
reverse order after those accumulated in `done`. -/
theorem callStagedAux_fail (ctx : Context) (opts : CallServicesOpts)
    (stages : List (List Service)) :
    ∀ (k0 : Nat) (done : List (List Service)) (k : Nat),
    k < stages.length →
    (∀ j, j < k → (CallServices ctx (stages.getD j []) opts).summary = none) →
    (CallServices ctx (stages.getD k []) opts).summary ≠ none →
    callStagedAux ctx opts stages k0 done =
      ⟨k0 + k, (CallServices ctx (stages.getD k []) opts).errs,
       (CallServices ctx (stages.getD k []) opts).summary,
       List.range' k0 (k + 1),
       if opts.SkipRollback then []
       else (stages.take k).reverse ++ done⟩ := by
  induction stages with
  | nil => intro k0 done k hk; exact absurd hk (by simp)
  | cons stage rest ih =>
    intro k0 done k hk hpre hfail
    cases k with
    | zero =>
      have hs : (stage :: rest).getD 0 [] = stage := rfl
      rw [hs] at hfail
      rcases Option.ne_none_iff_exists.mp hfail with ⟨e, he⟩
      simp only [callStagedAux, ← he, hs]
      cases hsk : opts.SkipRollback <;> simp [hsk]
    | succ k' =>
      have h0 : (CallServices ctx stage opts).summary = none :=
        hpre 0 (Nat.succ_pos k')
      have hk' : k' < rest.length := Nat.lt_of_succ_lt_succ hk
      have hpre' : ∀ j, j < k' →
          (CallServices ctx (rest.getD j []) opts).summary = none :=
        fun j hj => hpre (j + 1) (Nat.succ_lt_succ hj)
      have hfail' : (CallServices ctx (rest.getD k' []) opts).summary ≠ none :=
        hfail
      have ih2 := ih (k0 + 1) (stage :: done) k' hk' hpre' hfail'
      simp only [callStagedAux, h0, ih2, List.getD_cons_succ, List.take_succ_cons,
        List.range'_succ, List.reverse_cons, List.append_assoc,
        List.cons_append, List.nil_append]
      cases hsk : opts.SkipRollback <;>
        · simp [hsk]
          omega

/-- Claim C5 (functional_correctness): `CallStagedServices` runs stages in
index order; if stage `k` is the first whose `CallServices` returns a
summary failure, it returns `(k, stage-k errors, that summary)` having
started only stages `0..k`, and (unless `SkipRollback`) the detached task
rolls back exactly the batches `stages[k-1], ..., stages[0]`, in that
order (stage `k` is not among them — `CallServices` itself rolls it back);
if every stage succeeds it returns `(stages.length, nil, nil)`. -/
theorem callStagedServices_spec (ctx : Context)
    (stages : List (List Service)) (opts : CallServicesOpts) :
    (∀ k, k < stages.length →
      (∀ j, j < k →
        (CallServices ctx (stages.getD j []) opts).summary = none) →
      (CallServices ctx (stages.getD k []) opts).summary ≠ none →
      CallStagedServices ctx stages opts =
        ⟨k, (CallServices ctx (stages.getD k []) opts).errs,
         (CallServices ctx (stages.getD k []) opts).summary,
         List.range (k + 1),
         if opts.SkipRollback then [] else (stages.take k).reverse⟩) ∧
    ((∀ stage ∈ stages, (CallServices ctx stage opts).summary = none) →
      CallStagedServices ctx stages opts =
        ⟨stages.length, [], none, List.range stages.length, []⟩) := by
  constructor
  · intro k hk hpre hfail
    rw [CallStagedServices, callStagedAux_fail ctx opts stages 0 [] k hk hpre
      hfail, List.range_eq_range']
    simp
  · intro h
    rw [CallStagedServices, callStagedAux_all_ok ctx opts stages 0 [] h,
      List.range_eq_range']
    simp

/-- Witness for C5: two stages, the first fine and the second failing its
RUN; the loop stops at stage 1 and schedules stage 0 for rollback. -/
theorem callStagedServices_spec_witness :
    CallStagedServices wCtxEmpty [[wSvcOk], [wSvcRunFail]] ⟨false⟩ =
      ⟨1, (CallServices wCtxEmpty ([[wSvcOk], [wSvcRunFail]].getD 1 []) ⟨false⟩).errs,
       (CallServices wCtxEmpty ([[wSvcOk], [wSvcRunFail]].getD 1 []) ⟨false⟩).summary,
       List.range 2,
       if (⟨false⟩ : CallServicesOpts).SkipRollback then []
       else ([[wSvcOk], [wSvcRunFail]].take 1).reverse⟩ :=
  (callStagedServices_spec wCtxEmpty [[wSvcOk], [wSvcRunFail]] ⟨false⟩).1
    1 (by decide)
    (fun j hj => by
      have hj0 : j = 0 := by omega
      subst hj0
      rfl)
    (by decide)

end OrchPkg
